import Mathlib

set_option maxRecDepth 8000

/-! Shallow embedding of failprint's capture module (src/failprint/capture.py):
the Capture enum with its cast classmethod, and the CaptureManager context
manager that redirects the standard output and error file descriptors to a
temporary backing file (or to the null device), restores them on exit, and
decodes the captured bytes.  Process-global effects (the file-descriptor
table, the sys.stdout / sys.stderr / sys.stdin stream objects, flushes) are
modelled by an explicit World state threaded through the operations; the
fallible OS calls of activation consume a fault budget so that a resource
fault can be injected at any point. -/

/-- The Capture enumeration: the possible output capture modes. -/
inductive Capture where
  | STDOUT
  | STDERR
  | BOTH
  | NONE
deriving DecidableEq, Repr

/-- The string value attached to each enumeration member. -/
def Capture.value : Capture → String
  | .STDOUT => "stdout"
  | .STDERR => "stderr"
  | .BOTH => "both"
  | .NONE => "none"

/-- Enum lookup by value, as the Python call Capture(value): returns the
member whose value equals the string, else fails (ValueError). -/
def Capture.ofValue (s : String) : Option Capture :=
  if s = "stdout" then some .STDOUT
  else if s = "stderr" then some .STDERR
  else if s = "both" then some .BOTH
  else if s = "none" then some .NONE
  else none

/-- The runtime values accepted by Capture.cast: None, a bool, a Capture
value, or a string. -/
inductive CastValue where
  | pynone
  | pybool (b : Bool)
  | pycapture (c : Capture)
  | pystr (s : String)
deriving DecidableEq, Repr

/-- The error raised when a string does not name a Capture value (the
ValueError bubbling up from the enum call in cast). -/
structure ModeCastError where
  val : String
deriving DecidableEq, Repr

/-- Capture.cast: None and True map to BOTH, False maps to NONE, a Capture
value maps to itself, and a string goes through enum lookup by value, any
error bubbling up. -/
def Capture.cast : CastValue → Except ModeCastError Capture
  | .pynone => .ok .BOTH
  | .pybool true => .ok .BOTH
  | .pybool false => .ok .NONE
  | .pycapture c => .ok c
  | .pystr s =>
    match Capture.ofValue s with
    | some c => .ok c
    | none => .error ⟨s⟩

/-- Is b a UTF-8 continuation byte (0x80 to 0xBF)? -/
def isCont (b : Nat) : Bool := 128 ≤ b && b < 192

/-- Strict UTF-8 decoding of a byte list, as Python bytes.decode with the
utf-8 codec: rejects stray continuation bytes, overlong encodings,
surrogates and out-of-range code points.  Fuel-indexed; called with the
length of the list. -/
def utf8DecodeAux : Nat → List Nat → Option (List Char)
  | _, [] => some []
  | 0, _ :: _ => none
  | fuel + 1, b :: rest =>
    if b < 128 then
      (utf8DecodeAux fuel rest).map (fun cs => Char.ofNat b :: cs)
    else if b < 194 then none
    else if b < 224 then
      match rest with
      | b1 :: rest1 =>
        if isCont b1 then
          (utf8DecodeAux fuel rest1).map
            (fun cs => Char.ofNat ((b - 192) * 64 + (b1 - 128)) :: cs)
        else none
      | [] => none
    else if b < 240 then
      match rest with
      | b1 :: b2 :: rest2 =>
        if isCont b1 && isCont b2
            && (b ≠ 224 || 160 ≤ b1)
            && (b ≠ 237 || b1 < 160) then
          (utf8DecodeAux fuel rest2).map
            (fun cs => Char.ofNat ((b - 224) * 4096 + (b1 - 128) * 64 + (b2 - 128)) :: cs)
        else none
      | _ => none
    else if b < 245 then
      match rest with
      | b1 :: b2 :: b3 :: rest3 =>
        if isCont b1 && isCont b2 && isCont b3
            && (b ≠ 240 || 144 ≤ b1)
            && (b ≠ 244 || b1 < 144) then
          (utf8DecodeAux fuel rest3).map
            (fun cs =>
              Char.ofNat ((b - 240) * 262144 + (b1 - 128) * 4096 + (b2 - 128) * 64 + (b3 - 128)) :: cs)
        else none
      | _ => none
    else none

/-- bytes.decode with the utf-8 codec, on a whole byte list. -/
def utf8Decode (bs : List Nat) : Option String :=
  (utf8DecodeAux bs.length bs).map (fun cs => String.mk cs)

/-- Decoding with the console device encoding (the os.device_encoding(0)
fallback used on Windows), modelled as a total single-byte OEM code page:
every byte maps to one character. -/
def deviceDecode (bs : List Nat) : String :=
  String.mk (bs.map (fun b => Char.ofNat b))

/-- readlines on a binary file: split after each newline byte, keeping the
newline with its line. -/
def splitLinesAux : List Nat → List Nat → List (List Nat)
  | acc, [] => if acc.isEmpty then [] else [acc.reverse]
  | acc, b :: rest =>
    if b = 10 then (b :: acc).reverse :: splitLinesAux [] rest
    else splitLinesAux (b :: acc) rest

/-- All the lines of a byte buffer, newline terminators kept. -/
def splitLines (bs : List Nat) : List (List Nat) := splitLinesAux [] bs

/-- The Python error kinds surfaced by the capture manager. -/
inductive PyErr where
  | notFinished
  | typeError
  | unicodeDecodeError
  | attributeError
  | osError
deriving DecidableEq, Repr

/-- Reading the temporary file back, as in the tail of
CaptureManager.__exit__: on Windows decode line by line, falling back to the
device encoding for a line whose utf-8 decoding fails; elsewhere decode the
whole buffer as utf-8 and let a failure bubble up. -/
def decodeCaptured (windows : Bool) (buf : List Nat) : Except PyErr String :=
  if windows then
    .ok (String.join ((splitLines buf).map
      (fun line =>
        match utf8Decode line with
        | some s => s
        | none => deviceDecode line)))
  else
    match utf8Decode buf with
    | some s => .ok s
    | none => .error .unicodeDecodeError

/-- What an open file descriptor refers to. -/
inductive FdTarget where
  | termOut
  | termErr
  | termIn
  | tempFile
  | devnull
deriving DecidableEq, Repr

/-- High-level stream objects (the values of sys.stdout, sys.stderr and
sys.stdin).  memText models io.StringIO(s); reopened models the stream
object rebuilt by _reopen_stdio on Windows after dup2 invalidated it. -/
inductive StreamObj where
  | origOut
  | origErr
  | origIn
  | memText (s : String)
  | reopened (prev : StreamObj)
deriving DecidableEq, Repr

/-- fileno of a stream object.  The in-memory text stream has no real
descriptor (Python raises there); it is never asked for one on the paths
the source takes, so any value serves. -/
def fileno : StreamObj → Nat
  | .origOut => 1
  | .origErr => 2
  | .origIn => 0
  | .memText _ => 0
  | .reopened p => fileno p

/-- Observable actions on the process state, recorded as a trace. -/
inductive Event where
  | flushStdout
  | flushStderr
  | openDevnull (fd : Nat)
  | openTemp (fd : Nat)
  | dupFd (src res : Nat)
  | dup2Fd (src dst : Nat)
  | closedFd (fd : Nat)
  | setStdinObj
  | setStdoutObj
  | setStderrObj
deriving DecidableEq, Repr

/-- The process-global state the capture manager manipulates: the open
file-descriptor table, the three stream objects, the bytes sitting in the
backing temporary file, the bytes that reached the original stdout and
stderr destinations, and the trace of actions performed so far. -/
structure World where
  fdTable : List (Nat × FdTarget)
  nextFd : Nat
  stdoutObj : StreamObj
  stderrObj : StreamObj
  stdinObj : StreamObj
  tempData : List Nat
  termOutData : List Nat
  termErrData : List Nat
  events : List Event
deriving DecidableEq, Repr

/-- Append an event to the trace. -/
def pushEvent (w : World) (e : Event) : World :=
  { w with events := w.events ++ [e] }

/-- The target an open descriptor refers to, if the descriptor is open. -/
def lookupFd (tbl : List (Nat × FdTarget)) (fd : Nat) : Option FdTarget :=
  match tbl.find? (fun p => p.1 == fd) with
  | some p => some p.2
  | none => none

/-- Remove a descriptor from the table. -/
def eraseFd (tbl : List (Nat × FdTarget)) (fd : Nat) : List (Nat × FdTarget) :=
  tbl.filter (fun p => p.1 != fd)

/-- Point fd at tgt, silently dropping whatever it referred to before
(dup2 semantics on the table). -/
def setFd (tbl : List (Nat × FdTarget)) (fd : Nat) (tgt : FdTarget) : List (Nat × FdTarget) :=
  (fd, tgt) :: eraseFd tbl fd

/-- The number of open descriptors. -/
def fdCount (w : World) : Nat := w.fdTable.length

/-- The number of open descriptors referring to the null device. -/
def devnullCount (w : World) : Nat :=
  (w.fdTable.filter (fun p => p.2 == FdTarget.devnull)).length

/-- How many null-device handles were opened, per the trace. -/
def devnullOpens (w : World) : Nat :=
  (w.events.filter (fun e => match e with | .openDevnull _ => true | _ => false)).length

/-- Close a descriptor: remove it from the table. -/
def closeFd (w : World) (fd : Nat) : World :=
  pushEvent { w with fdTable := eraseFd w.fdTable fd } (.closedFd fd)

/-- Write bytes through a descriptor: they land in the backing file, at the
original destination, or nowhere, according to the descriptor's target. -/
def writeFd (w : World) (fd : Nat) (data : List Nat) : World :=
  match lookupFd w.fdTable fd with
  | some .tempFile => { w with tempData := w.tempData ++ data }
  | some .termOut => { w with termOutData := w.termOutData ++ data }
  | some .termErr => { w with termErrData := w.termErrData ++ data }
  | _ => w

/-- OS-call context: the world plus a fault budget.  Each fallible OS call
(open, dup, dup2) consumes one unit of budget and raises a resource fault
when the budget is exhausted, which models an OS-level failure striking at
that exact point of the sequence. -/
structure OS where
  w : World
  budget : Nat
deriving Repr

/-- Open a new descriptor on a target (lowest unused number modelled by a
fresh counter). -/
def osOpen (tgt : FdTarget) (ev : Nat → Event) (o : OS) : Except World (Nat × OS) :=
  if o.budget = 0 then .error o.w
  else
    let fd := o.w.nextFd
    let w := pushEvent
      { o.w with fdTable := (fd, tgt) :: o.w.fdTable, nextFd := fd + 1 } (ev fd)
    .ok (fd, ⟨w, o.budget - 1⟩)

/-- open(os.devnull, mode="wb"). -/
def osOpenDevnull (o : OS) : Except World (Nat × OS) :=
  osOpen .devnull (fun fd => .openDevnull fd) o

/-- tempfile.TemporaryFile: a fresh, empty, anonymous backing file. -/
def osOpenTemp (o : OS) : Except World (Nat × OS) :=
  match osOpen .tempFile (fun fd => .openTemp fd) o with
  | .ok (fd, o1) => .ok (fd, ⟨{ o1.w with tempData := [] }, o1.budget⟩)
  | .error w => .error w

/-- os.dup: duplicate an open descriptor onto a fresh number. -/
def osDup (fd : Nat) (o : OS) : Except World (Nat × OS) :=
  if o.budget = 0 then .error o.w
  else
    match lookupFd o.w.fdTable fd with
    | none => .error o.w
    | some tgt =>
      let res := o.w.nextFd
      let w := pushEvent
        { o.w with fdTable := (res, tgt) :: o.w.fdTable, nextFd := res + 1 } (.dupFd fd res)
      .ok (res, ⟨w, o.budget - 1⟩)

/-- os.dup2: make dst refer to whatever src refers to, closing what dst
referred to before. -/
def osDup2 (src dst : Nat) (o : OS) : Except World OS :=
  if o.budget = 0 then .error o.w
  else
    match lookupFd o.w.fdTable src with
    | none => .error o.w
    | some tgt =>
      let w := pushEvent { o.w with fdTable := setFd o.w.fdTable dst tgt } (.dup2Fd src dst)
      .ok ⟨w, o.budget - 1⟩

/-- The CaptureManager object's attributes, as assigned in __init__.  The
_new_stdout_fd and _new_stderr_fd attributes are only created inside
__enter__, hence Option with none standing for the attribute being absent;
the four ..._fd integers start at -1 as in __init__ (note that
_saved_stdout_fd and _saved_stderr_fd are initialized but never used by the
source: __enter__ stores the duplicates under the _new_... names). -/
structure CaptureManager where
  _temp_file : Option Nat
  _capture : Capture
  _devnull : Option Nat
  _stdin : Option String
  _saved_stderr : Option StreamObj
  _saved_stdout : Option StreamObj
  _saved_stdin : Option StreamObj
  _stdout_fd : Int
  _stderr_fd : Int
  _saved_stdout_fd : Int
  _saved_stderr_fd : Int
  _new_stdout_fd : Option Nat
  _new_stderr_fd : Option Nat
  _output : Option String
deriving DecidableEq, Repr

/-- The attribute values CaptureManager.__init__ assigns. -/
def CaptureManager.initState (capture : Capture) (stdin : Option String) : CaptureManager :=
  { _temp_file := none
    _capture := capture
    _devnull := none
    _stdin := stdin
    _saved_stderr := none
    _saved_stdout := none
    _saved_stdin := none
    _stdout_fd := -1
    _stderr_fd := -1
    _saved_stdout_fd := -1
    _saved_stderr_fd := -1
    _new_stdout_fd := none
    _new_stderr_fd := none
    _output := none }

/-- CaptureManager.__init__ as a step on the process state: it only assigns
the object's own attributes; the world is taken and returned so that the
absence of any external effect is a provable statement. -/
def CaptureManager.init (capture : Capture) (stdin : Option String) (w : World) :
    CaptureManager × World :=
  (CaptureManager.initState capture stdin, w)

/-- CaptureManager.__enter__.  For mode NONE it returns at once.  Otherwise:
flush both streams, patch sys.stdin when an override was given, open the
null device when exactly one stream is captured, create the temporary
backing file, then for stdout and stderr in turn: save the stream object,
record its descriptor number, duplicate that descriptor, and redirect it to
the backing file or to the null device; on Windows rebuild the stream
object that dup2 invalidated.  A resource fault (budget exhausted or a
descriptor operation on a closed descriptor) aborts the sequence there,
returning the world as already mutated. -/
def CaptureManager.enter (windows : Bool) (budget : Nat) (s : CaptureManager) (w : World) :
    Except World (CaptureManager × World) :=
  if s._capture = Capture.NONE then .ok (s, w)
  else
    let w := pushEvent (pushEvent w .flushStdout) .flushStderr
    let sw :=
      match s._stdin with
      | some txt =>
        ({ s with _saved_stdin := some w.stdinObj },
         pushEvent { w with stdinObj := .memText txt } .setStdinObj)
      | none => (s, w)
    let s := sw.1
    let o : OS := ⟨sw.2, budget⟩
    match (if s._capture = Capture.STDOUT ∨ s._capture = Capture.STDERR
           then (osOpenDevnull o).map (fun r => (some r.1, r.2))
           else .ok (none, o)) with
    | .error w1 => .error w1
    | .ok (dn, o) =>
      let s := { s with _devnull := dn }
      match osOpenTemp o with
      | .error w1 => .error w1
      | .ok (fdw, o) =>
        let s := { s with _temp_file := some fdw }
        let s := { s with _saved_stdout := some o.w.stdoutObj }
        let outFd := fileno o.w.stdoutObj
        let s := { s with _stdout_fd := (outFd : Int) }
        match osDup outFd o with
        | .error w1 => .error w1
        | .ok (newOut, o) =>
          let s := { s with _new_stdout_fd := some newOut }
          match (if s._capture = Capture.BOTH ∨ s._capture = Capture.STDOUT
                 then osDup2 fdw outFd o
                 else
                   match s._devnull with
                   | some dn2 => osDup2 dn2 outFd o
                   | none => .error o.w) with
          | .error w1 => .error w1
          | .ok o =>
            let o : OS :=
              if windows then
                ⟨pushEvent { o.w with stdoutObj := .reopened o.w.stdoutObj } .setStdoutObj,
                 o.budget⟩
              else o
            let s := { s with _saved_stderr := some o.w.stderrObj }
            let errFd := fileno o.w.stderrObj
            let s := { s with _stderr_fd := (errFd : Int) }
            match osDup errFd o with
            | .error w1 => .error w1
            | .ok (newErr, o) =>
              let s := { s with _new_stderr_fd := some newErr }
              match (if s._capture = Capture.BOTH ∨ s._capture = Capture.STDERR
                     then osDup2 fdw errFd o
                     else
                       match s._devnull with
                       | some dn2 => osDup2 dn2 errFd o
                       | none => .error o.w) with
              | .error w1 => .error w1
              | .ok o =>
                let o : OS :=
                  if windows then
                    ⟨pushEvent { o.w with stderrObj := .reopened o.w.stderrObj } .setStderrObj,
                     o.budget⟩
                  else o
                .ok (s, o.w)

/-- CaptureManager.__exit__.  For mode NONE it only flushes both streams.
Otherwise it restores sys.stdin if it was overridden, closes the null
device if it was opened, flushes and closes the redirected stream objects,
points the stdout and stderr descriptors back at the saved duplicates,
reinstates the saved stream objects, and finally reads the temporary file
back (decoding it per platform) and closes it.  The saved duplicates are
used as dup2 sources but never closed. -/
def CaptureManager.exit (windows : Bool) (s : CaptureManager) (w : World) :
    Except (World × PyErr) (CaptureManager × World) :=
  if s._capture = Capture.NONE then
    .ok (s, pushEvent (pushEvent w .flushStdout) .flushStderr)
  else
    let w := match s._saved_stdin with
      | some prev => pushEvent { w with stdinObj := prev } .setStdinObj
      | none => w
    let w := match s._devnull with
      | some dn => closeFd w dn
      | none => w
    let w := pushEvent w .flushStdout
    let w := closeFd w (fileno w.stdoutObj)
    let w := pushEvent w .flushStderr
    let w := closeFd w (fileno w.stderrObj)
    match s._new_stdout_fd with
    | none => .error (w, .attributeError)
    | some newOut =>
      match lookupFd w.fdTable newOut with
      | none => .error (w, .osError)
      | some tgtOut =>
        let w := pushEvent
          { w with fdTable := setFd w.fdTable s._stdout_fd.toNat tgtOut }
          (.dup2Fd newOut s._stdout_fd.toNat)
        match s._new_stderr_fd with
        | none => .error (w, .attributeError)
        | some newErr =>
          match lookupFd w.fdTable newErr with
          | none => .error (w, .osError)
          | some tgtErr =>
            let w := pushEvent
              { w with fdTable := setFd w.fdTable s._stderr_fd.toNat tgtErr }
              (.dup2Fd newErr s._stderr_fd.toNat)
            let w := match s._saved_stdout with
              | some prev => pushEvent { w with stdoutObj := prev } .setStdoutObj
              | none => w
            let w := match s._saved_stderr with
              | some prev => pushEvent { w with stderrObj := prev } .setStderrObj
              | none => w
            match s._temp_file with
            | none => .ok (s, w)
            | some tf =>
              match decodeCaptured windows w.tempData with
              | .ok txt => .ok ({ s with _output := some txt }, closeFd w tf)
              | .error e => .error (w, e)

/-- The output property: raises RuntimeError when read before the context
manager finished while the mode is not NONE; otherwise returns _output
(None for mode NONE, the captured text after finalization). -/
def CaptureManager.output (s : CaptureManager) : Except PyErr (Option String) :=
  if s._output = none ∧ s._capture ≠ Capture.NONE then .error .notFinished
  else .ok s._output

/-- __str__ returns self.output; when the property yields None (mode NONE),
the str() machinery fails with a TypeError because __str__ must return a
string, so no string at all is produced. -/
def CaptureManager.toText (s : CaptureManager) : Except PyErr String :=
  match CaptureManager.output s with
  | .error e => .error e
  | .ok (some t) => .ok t
  | .ok none => .error .typeError

/-- Did the Except computation succeed? -/
def exceptOk {e a : Type} : Except e a → Bool
  | .ok _ => true
  | .error _ => false

/-- The error kind of a failed finalization, if it failed. -/
def exitErrKind : Except (World × PyErr) (CaptureManager × World) → Option PyErr
  | .error f => some f.2
  | .ok _ => none

/-- The outcome of a with-statement around a CaptureManager. -/
inductive ScopeResult where
  | ok (s : CaptureManager) (w : World)
  | enterFault (w : World)
  | bodyError (w : World)
  | exitError (w : World) (e : PyErr)
deriving DecidableEq, Repr

/-- Python with-statement semantics for CaptureManager, as used by
Capture.here: construct the manager, run __enter__; if __enter__ raises,
the error propagates and __exit__ is never called; otherwise run the body
(modelled as a write on descriptor 1 plus an optional exception) and call
__exit__ afterwards on either body outcome.  The boolean of the result
reports whether __exit__ ran. -/
def withScope (windows : Bool) (budget : Nat) (c : Capture) (stdin : Option String)
    (bodyData : List Nat) (bodyRaises : Bool) (w : World) : ScopeResult × Bool :=
  let sw := CaptureManager.init c stdin w
  match CaptureManager.enter windows budget sw.1 sw.2 with
  | .error w1 => (.enterFault w1, false)
  | .ok (s1, w1) =>
    let w2 := writeFd w1 1 bodyData
    match CaptureManager.exit windows s1 w2 with
    | .ok (s2, w3) => (if bodyRaises then (.bodyError w3, true) else (.ok s2 w3, true))
    | .error f => (.exitError f.1 f.2, true)

/-- The standard pre-capture process state: descriptors 0, 1 and 2 open on
the original stdin, stdout and stderr, the original stream objects
installed, nothing captured and no events yet. -/
def w0 : World :=
  { fdTable := [(0, .termIn), (1, .termOut), (2, .termErr)]
    nextFd := 3
    stdoutObj := .origOut
    stderrObj := .origErr
    stdinObj := .origIn
    tempData := []
    termOutData := []
    termErrData := []
    events := [] }

/-- The world right after a fault-free activation from the standard initial
state. -/
def enterWorld (windows : Bool) (c : Capture) (stdin : Option String) : World :=
  match CaptureManager.enter windows 100 (CaptureManager.init c stdin w0).1 w0 with
  | .ok r => r.2
  | .error w => w

/-- One complete, fault-free capture scope with an empty body on Unix,
returning the resulting world (used to count descriptors across sequential
scopes). -/
def scopeW (c : Capture) (w : World) : World :=
  match CaptureManager.enter false 100 (CaptureManager.init c none w).1 w with
  | .ok (s, w1) =>
    match CaptureManager.exit false s w1 with
    | .ok r => r.2
    | .error f => f.1
  | .error w1 => w1

/-- A complete fault-free scope on the standard initial world: activation,
then a body that leaves the bytes d in the backing file, then finalization. -/
def scopeRun (windows : Bool) (c : Capture) (stdin : Option String) (d : List Nat) :
    Except (World × PyErr) (CaptureManager × World) :=
  match CaptureManager.enter windows 100 (CaptureManager.init c stdin w0).1 w0 with
  | .ok (s1, w1) => CaptureManager.exit windows s1 { w1 with tempData := d }
  | .error w => .error (w, .osError)

/-- The manager's state between activation and finalization. -/
def scopeMid (windows : Bool) (c : Capture) (stdin : Option String) : Option CaptureManager :=
  match CaptureManager.enter windows 100 (CaptureManager.init c stdin w0).1 w0 with
  | .ok (s1, _) => some s1
  | .error _ => none

/-- The world after a complete fault-free scope, when finalization succeeded. -/
def scopeEnd (windows : Bool) (c : Capture) (stdin : Option String) (d : List Nat) : Option World :=
  match scopeRun windows c stdin d with
  | .ok r => some r.2
  | .error _ => none

/-- C4: Capture.cast maps absent input to BOTH, True to BOTH, False to NONE,
a Capture value to itself, and a string naming a mode value to the matching
member; any other string fails with the invalid-mode error. -/
theorem cast_normalization :
    Capture.cast .pynone = .ok .BOTH ∧
    Capture.cast (.pybool true) = .ok .BOTH ∧
    Capture.cast (.pybool false) = .ok .NONE ∧
    (∀ c, Capture.cast (.pycapture c) = .ok c) ∧
    (∀ s c, Capture.value c = s → Capture.cast (.pystr s) = .ok c) ∧
    (∀ s, (∀ c, Capture.value c ≠ s) → Capture.cast (.pystr s) = .error ⟨s⟩) := by
  refine ⟨rfl, rfl, rfl, fun c => rfl, ?_, ?_⟩
  · intro s c h
    subst h
    cases c <;> rfl
  · intro s h
    have h1 : ¬ s = "stdout" := fun he => h .STDOUT he.symm
    have h2 : ¬ s = "stderr" := fun he => h .STDERR he.symm
    have h3 : ¬ s = "both" := fun he => h .BOTH he.symm
    have h4 : ¬ s = "none" := fun he => h .NONE he.symm
    simp [Capture.cast, Capture.ofValue, h1, h2, h3, h4]

/-- C4 witness: a mode name is accepted, an invalid name is rejected. -/
theorem cast_normalization_witness :
    Capture.cast (.pystr ("stdout")) = .ok .STDOUT ∧
    Capture.cast (.pystr ("loud")) = .error ⟨"loud"⟩ :=
  ⟨cast_normalization.2.2.2.2.1 ("stdout") .STDOUT rfl,
   cast_normalization.2.2.2.2.2 ("loud") (fun c => by cases c <;> decide)⟩

/-- C10: constructing a capture manager has no effect on the process state:
the world (descriptor table, stream objects, traces) is returned unchanged,
and the object's fields get exactly the documented initial values. -/
theorem init_no_side_effects (c : Capture) (stdin : Option String) (w : World) :
    CaptureManager.init c stdin w =
      ({ _temp_file := none, _capture := c, _devnull := none, _stdin := stdin,
         _saved_stderr := none, _saved_stdout := none, _saved_stdin := none,
         _stdout_fd := -1, _stderr_fd := -1, _saved_stdout_fd := -1,
         _saved_stderr_fd := -1, _new_stdout_fd := none, _new_stderr_fd := none,
         _output := none }, w) := rfl

/-- C5 counterexample: for mode NONE, activation does not flush anything:
__enter__ returns before the flush calls, leaving the world untouched with
an empty event trace (no flush event), while the claim says the current
stdout and stderr are flushed at activation. -/
theorem none_enter_counterexample :
    CaptureManager.enter false 100 (CaptureManager.init .NONE none w0).1 w0 =
      .ok ((CaptureManager.init .NONE none w0).1, w0) ∧
    w0.events = [] := ⟨rfl, rfl⟩

/-- C5 amended: for mode NONE, activation does nothing at all (not even a
flush: the world is returned unchanged), and the flush of stdout and stderr
happens at finalization instead. -/
theorem none_mode_passthrough (windows : Bool) (budget : Nat) (stdin : Option String) (w : World) :
    CaptureManager.enter windows budget (CaptureManager.init .NONE stdin w).1 w =
      .ok ((CaptureManager.init .NONE stdin w).1, w) ∧
    CaptureManager.exit windows (CaptureManager.init .NONE stdin w).1 w =
      .ok ((CaptureManager.init .NONE stdin w).1,
        pushEvent (pushEvent w .flushStdout) .flushStderr) := ⟨rfl, rfl⟩

/-- C9: for mode NONE the output accessor never raises and yields None both
before and after the scope (enter and exit leave the manager unchanged and
never populate the captured text), and the textual conversion consequently
yields no string at all (a TypeError, not an empty string). -/
theorem none_mode_output_is_none (windows : Bool) (budget : Nat) (stdin : Option String) (w : World) :
    CaptureManager.output (CaptureManager.init .NONE stdin w).1 = .ok none ∧
    CaptureManager.enter windows budget (CaptureManager.init .NONE stdin w).1 w =
      .ok ((CaptureManager.init .NONE stdin w).1, w) ∧
    CaptureManager.exit windows (CaptureManager.init .NONE stdin w).1 w =
      .ok ((CaptureManager.init .NONE stdin w).1,
        pushEvent (pushEvent w .flushStdout) .flushStderr) ∧
    CaptureManager.toText (CaptureManager.init .NONE stdin w).1 = .error .typeError :=
  ⟨rfl, rfl, rfl, rfl⟩

/-- C1: the descriptors duplicated by activation (os.dup of the stdout and
stderr descriptors) are never closed by finalization, which only uses them
as dup2 sources: every completed scope with mode other than NONE leaks two
descriptors, so after three sequential scopes the count is baseline + 6
instead of returning to baseline (the leaked duplicates 4 and 5 are still
open after the first scope). -/
theorem descriptor_leak_per_scope :
    fdCount (scopeW .BOTH w0) = fdCount w0 + 2 ∧
    fdCount (scopeW .STDOUT w0) = fdCount w0 + 2 ∧
    fdCount (scopeW .STDERR w0) = fdCount w0 + 2 ∧
    fdCount (scopeW .BOTH (scopeW .BOTH (scopeW .BOTH w0))) = fdCount w0 + 6 ∧
    lookupFd (scopeW .BOTH w0).fdTable 4 = some .termOut ∧
    lookupFd (scopeW .BOTH w0).fdTable 5 = some .termErr := by decide

/-- C2 counterexample: a resource fault striking during activation (here on
the os.dup of the stderr descriptor, after stdout was already redirected)
propagates without finalization ever running, and the partial redirection
is not undone: descriptor 1 is left pointing at the backing file. -/
theorem enter_fault_counterexample :
    (withScope false 3 .BOTH none [] false w0).2 = false ∧
    (match (withScope false 3 .BOTH none [] false w0).1 with
     | .enterFault w => lookupFd w.fdTable 1
     | _ => none) = some .tempFile := by decide

/-- C2 amended: finalization runs on every exit path of the body once
activation has succeeded (normal completion or exception alike), but when
activation itself faults, the error propagates with no finalization at all:
the with-statement never calls __exit__ if __enter__ raised. -/
theorem finalization_iff_activation_succeeded (windows : Bool) (budget : Nat)
    (c : Capture) (stdin : Option String) (bodyData : List Nat) (bodyRaises : Bool) (w : World) :
    (exceptOk (CaptureManager.enter windows budget (CaptureManager.init c stdin w).1 w) = true →
      (withScope windows budget c stdin bodyData bodyRaises w).2 = true) ∧
    (exceptOk (CaptureManager.enter windows budget (CaptureManager.init c stdin w).1 w) = false →
      (withScope windows budget c stdin bodyData bodyRaises w).2 = false) := by
  constructor
  · intro h
    simp only [withScope, CaptureManager.init] at h ⊢
    cases he : CaptureManager.enter windows budget (CaptureManager.initState c stdin) w with
    | error w1 => rw [he] at h; simp [exceptOk] at h
    | ok r =>
      obtain ⟨s1, w1⟩ := r
      simp only [he]
      cases hex : CaptureManager.exit windows s1 (writeFd w1 1 bodyData) <;>
        cases bodyRaises <;> simp [hex]
  · intro h
    simp only [withScope, CaptureManager.init] at h ⊢
    cases he : CaptureManager.enter windows budget (CaptureManager.initState c stdin) w with
    | error w1 => simp only [he]
    | ok r => rw [he] at h; simp [exceptOk] at h

/-- C2 witness: with a large budget activation succeeds and finalization
runs; with the budget that faults mid-activation finalization never runs. -/
theorem finalization_iff_activation_succeeded_witness :
    (withScope false 100 .BOTH none [] false w0).2 = true ∧
    (withScope false 3 .BOTH none [] false w0).2 = false :=
  ⟨(finalization_iff_activation_succeeded false 100 .BOTH none [] false w0).1 (by decide),
   (finalization_iff_activation_succeeded false 3 .BOTH none [] false w0).2 (by decide)⟩

/-- C3: for every mode other than NONE, reading the output accessor before
finalization (right after construction or while the scope is active) fails
with the not-finished error; after finalization it returns the captured
text, the decoding of whatever bytes the backing file holds — an empty but
defined string when nothing was written. -/
theorem output_premature_then_final (c : Capture) (stdin : Option String)
    (d : List Nat) (t : String) (hc : c ≠ Capture.NONE) (hd : utf8Decode d = some t) :
    CaptureManager.output (CaptureManager.init c stdin w0).1 = .error .notFinished ∧
    (scopeMid false c stdin).map CaptureManager.output = some (.error .notFinished) ∧
    (scopeRun false c stdin d).map (fun r => CaptureManager.output r.1) = .ok (.ok (some t)) := by
  have hdec : decodeCaptured false d = .ok t := by simp [decodeCaptured, hd]
  cases c with
  | NONE => exact absurd rfl hc
  | STDOUT =>
    cases stdin <;>
      exact ⟨rfl, rfl, by
        simp [scopeRun, CaptureManager.enter, CaptureManager.exit, CaptureManager.init,
          CaptureManager.initState, osOpenDevnull, osOpenTemp, osOpen, osDup, osDup2,
          lookupFd, setFd, eraseFd, pushEvent, closeFd, fileno, w0, hdec,
          CaptureManager.output, Except.map]⟩
  | STDERR =>
    cases stdin <;>
      exact ⟨rfl, rfl, by
        simp [scopeRun, CaptureManager.enter, CaptureManager.exit, CaptureManager.init,
          CaptureManager.initState, osOpenDevnull, osOpenTemp, osOpen, osDup, osDup2,
          lookupFd, setFd, eraseFd, pushEvent, closeFd, fileno, w0, hdec,
          CaptureManager.output, Except.map]⟩
  | BOTH =>
    cases stdin <;>
      exact ⟨rfl, rfl, by
        simp [scopeRun, CaptureManager.enter, CaptureManager.exit, CaptureManager.init,
          CaptureManager.initState, osOpenDevnull, osOpenTemp, osOpen, osDup, osDup2,
          lookupFd, setFd, eraseFd, pushEvent, closeFd, fileno, w0, hdec,
          CaptureManager.output, Except.map]⟩

/-- C3 witness: with mode BOTH and nothing written, finalization yields the
empty but defined string, and both premature reads fail. -/
theorem output_premature_then_final_witness :
    CaptureManager.output (CaptureManager.init .BOTH none w0).1 = .error .notFinished ∧
    (scopeMid false .BOTH none).map CaptureManager.output = some (.error .notFinished) ∧
    (scopeRun false .BOTH none []).map (fun r => CaptureManager.output r.1) =
      .ok (.ok (some (""))) :=
  output_premature_then_final .BOTH none [] ("") (by decide) (by decide)

/-- C6: a null-device handle is opened during activation exactly for modes
STDOUT and STDERR (one open; none for BOTH and NONE), and the non-targeted
descriptor is redirected to it, so bytes written there afterwards reach
neither the backing file nor the original destination (the write leaves the
world unchanged), rather than being left alone. -/
theorem devnull_for_single_stream (windows : Bool) (stdin : Option String) :
    devnullOpens (enterWorld windows .STDOUT stdin) = 1 ∧
    lookupFd (enterWorld windows .STDOUT stdin).fdTable 2 = some .devnull ∧
    lookupFd (enterWorld windows .STDOUT stdin).fdTable 1 = some .tempFile ∧
    devnullOpens (enterWorld windows .STDERR stdin) = 1 ∧
    lookupFd (enterWorld windows .STDERR stdin).fdTable 1 = some .devnull ∧
    lookupFd (enterWorld windows .STDERR stdin).fdTable 2 = some .tempFile ∧
    devnullOpens (enterWorld windows .BOTH stdin) = 0 ∧
    devnullOpens (enterWorld windows .NONE stdin) = 0 ∧
    (∀ data,
      writeFd (enterWorld windows .STDOUT stdin) 2 data = enterWorld windows .STDOUT stdin ∧
      writeFd (enterWorld windows .STDERR stdin) 1 data = enterWorld windows .STDERR stdin) := by
  cases windows <;> cases stdin <;>
    exact ⟨rfl, rfl, rfl, rfl, rfl, rfl, rfl, rfl, fun data => ⟨rfl, rfl⟩⟩

/-- C7 counterexample: on the non-Windows path, finalization decodes the
whole backing buffer as utf-8 directly and lets a decoding failure
propagate out of __exit__ as an error, contrary to the claim that decoding
failures never propagate: one invalid byte written during a BOTH scope
makes finalization fail. -/
theorem unix_decode_error_propagates :
    (match CaptureManager.enter false 100 (CaptureManager.init .BOTH none w0).1 w0 with
     | .ok (s, w) => exitErrKind (CaptureManager.exit false s (writeFd w 1 [255]))
     | .error _ => none) = some .unicodeDecodeError := by decide

/-- C7 amended: on Windows the backing store is decoded line by line with a
fallback to the device encoding, and decoding never fails there (the
primary utf-8 decoding is used for every line on which it succeeds); on the
other platforms the whole buffer is decoded as utf-8 directly, a success
yielding exactly that decoding and a failure propagating as the
unicode-decode error. -/
theorem decode_policy (buf : List Nat) :
    (∃ s, decodeCaptured true buf = .ok s) ∧
    ((∀ l ∈ splitLines buf, (utf8Decode l).isSome = true) →
      decodeCaptured true buf =
        .ok (String.join ((splitLines buf).map (fun l => (utf8Decode l).getD (""))))) ∧
    (∀ s, utf8Decode buf = some s → decodeCaptured false buf = .ok s) ∧
    (utf8Decode buf = none → decodeCaptured false buf = .error .unicodeDecodeError) := by
  refine ⟨⟨_, rfl⟩, ?_, ?_, ?_⟩
  · intro h
    simp only [decodeCaptured, if_true]
    have hmap : (splitLines buf).map
        (fun line => match utf8Decode line with | some s => s | none => deviceDecode line) =
        (splitLines buf).map (fun l => (utf8Decode l).getD ("")) := by
      refine List.map_congr_left ?_
      intro l hl
      obtain ⟨s, hs⟩ := Option.isSome_iff_exists.mp (h l hl)
      simp [hs]
    rw [hmap]
  · intro s hs
    simp [decodeCaptured, hs]
  · intro h
    simp [decodeCaptured, h]

/-- C7 witness: a fully utf-8 buffer decodes by the primary decoding on
Windows; on Unix a valid buffer decodes whole and an invalid one makes the
error propagate. -/
theorem decode_policy_witness :
    decodeCaptured true [104, 10, 104] =
      .ok (String.join ((splitLines [104, 10, 104]).map (fun l => (utf8Decode l).getD ("")))) ∧
    decodeCaptured false [104] = .ok ("h") ∧
    decodeCaptured false [255] = .error .unicodeDecodeError :=
  ⟨(decode_policy [104, 10, 104]).2.1 (by decide),
   (decode_policy [104]).2.2.1 ("h") (by decide),
   (decode_policy [255]).2.2.2 (by decide)⟩

/-- C8 counterexample: a stdin override is supplied but the mode is NONE:
activation substitutes nothing (the world, its input stream object
included, is returned untouched and no prior stream is saved), so the
substitution is not governed by the presence of the override alone. -/
theorem stdin_override_none_mode_counterexample :
    CaptureManager.enter false 100 (CaptureManager.init .NONE (some ("42")) w0).1 w0 =
      .ok ((CaptureManager.init .NONE (some ("42")) w0).1, w0) ∧
    w0.stdinObj = .origIn ∧
    (CaptureManager.init .NONE (some ("42")) w0).1._saved_stdin = none := ⟨rfl, rfl, rfl⟩

/-- C8 amended: for every mode other than NONE, activation saves the prior
input stream object and substitutes the in-memory text source exactly when
an override is supplied, finalization then restoring the saved object
verbatim; without an override the input stream object is left untouched by
both activation and finalization. -/
theorem stdin_override_scope (c : Capture) (txt : String) (hc : c ≠ Capture.NONE) :
    (enterWorld false c (some txt)).stdinObj = .memText txt ∧
    (scopeMid false c (some txt)).map (fun s => s._saved_stdin) = some (some .origIn) ∧
    (scopeEnd false c (some txt) []).map World.stdinObj = some .origIn ∧
    (enterWorld false c none).stdinObj = .origIn ∧
    (scopeMid false c none).map (fun s => s._saved_stdin) = some none ∧
    (scopeEnd false c none []).map World.stdinObj = some .origIn := by
  cases c with
  | NONE => exact absurd rfl hc
  | STDOUT => exact ⟨rfl, rfl, rfl, rfl, rfl, rfl⟩
  | STDERR => exact ⟨rfl, rfl, rfl, rfl, rfl, rfl⟩
  | BOTH => exact ⟨rfl, rfl, rfl, rfl, rfl, rfl⟩

/-- C8 witness: with mode BOTH and an override, activation substitutes the
in-memory source and finalization restores the original input stream. -/
theorem stdin_override_scope_witness :
    (enterWorld false .BOTH (some ("42"))).stdinObj = .memText ("42") ∧
    (scopeMid false .BOTH (some ("42"))).map (fun s => s._saved_stdin) = some (some .origIn) ∧
    (scopeEnd false .BOTH (some ("42")) []).map World.stdinObj = some .origIn ∧
    (enterWorld false .BOTH none).stdinObj = .origIn ∧
    (scopeMid false .BOTH none).map (fun s => s._saved_stdin) = some none ∧
    (scopeEnd false .BOTH none []).map World.stdinObj = some .origIn :=
  stdin_override_scope .BOTH ("42") (by decide)
